import Mathlib

/-!
Verification of the retrieval engine in fetch_vahan.py (Vahan-Analysis).

The engine drives a remote browser session.  We embed it shallowly:

* Wall-clock time is discretized into ticks of the fixed 0.5 s poll interval;
  a timeout is a number of ticks.  Loops that poll the clock are written as
  structural recursion on the number of remaining ticks (`rem`), carrying the
  current absolute tick `t`; an iteration with `rem = 0` corresponds to the
  Python condition `time.time() - start < timeout` turning false.
* The filesystem seen through `dldir.glob` and `f.stat().st_size` is an
  oracle indexed by the tick at which the call happens.
* Python exceptions are modelled with `Except PyExc`; a `try/except`
  becomes a `match`, and code whose exceptions are not caught is written so
  that an `.error` result propagates to the caller unchanged.
* The selenium calls (`wait.until`, `el.click()`, `driver.execute_script`,
  ...) are oracles supplying the outcome of each call.
-/

namespace VahanFetch

/-- A Python exception value crossing the selenium session boundary.
`timeoutExc` is selenium TimeoutException (raised by `wait.until` when the
element never becomes clickable); `elementClickIntercepted` is
ElementClickInterceptedException; `otherExc` is any other exception. -/
inductive PyExc where
  | timeoutExc
  | elementClickIntercepted
  | otherExc (msg : String)
deriving DecidableEq

/-- A file in the download directory, seen through the pathlib interface used
by the source: its name and its `suffix` (the extension with the leading
dot, as returned by `Path.suffix`). -/
structure DFile where
  name : String
  suffix : String
deriving DecidableEq

/-- The accepted extension list of fetch_vahan.py line 138:
`f.suffix.lower() in [".xls", ".xlsx", ".csv"]`. -/
def acceptedExts : List String := [".xls", ".xlsx", ".csv"]

/-- Python `str.lower()`, character by character (the suffixes involved are
ASCII). -/
def strToLower (s : String) : String := String.mk (s.data.map Char.toLower)

/-- Filesystem oracle for `wait_for_download_completion` (lines 127-152):
`contents t` is the result of `dldir.glob("*")` at tick `t`, and
`size f t` is `f.stat().st_size` at tick `t`. -/
structure WatchEnv where
  contents : Nat → List DFile
  size : DFile → Nat → Nat

/-- The size-stabilization inner loop of `wait_for_download_completion`
(lines 140-150):

    prev_size = -1
    stable_count = 0
    while stable_count < 3 and time.time() - start < timeout:
        size = f.stat().st_size
        if size == prev_size: stable_count += 1
        else: stable_count = 0
        prev_size = size
        time.sleep(0.5)
    return f

Arguments are the remaining ticks `rem` (so `rem = 0` means the shared
timeout has elapsed), the current tick `t`, `prev` (= `prev_size`, an int
because it starts at -1) and `stable` (= `stable_count`).  The result pairs
the returned file with the tick at which the `return f` executes; note the
source returns `f` unconditionally when the loop exits, whether because
`stable_count` reached 3 or because the timeout elapsed. -/
def stabilizeLoop (env : WatchEnv) (f : DFile) : Nat → Nat → Int → Nat → DFile × Nat
  | 0, t, _, _ => (f, t)
  | rem + 1, t, prev, stable =>
    if stable < 3 then
      if (env.size f t : Int) = prev then
        stabilizeLoop env f rem (t + 1) (env.size f t : Int) (stable + 1)
      else
        stabilizeLoop env f rem (t + 1) (env.size f t : Int) 0
    else (f, t)

/-- One scan of the download directory (lines 134-138): `after = set(glob)`,
`new = after - before`, then the `for f in new` loop returns the first file
whose lowercased suffix is in the accepted extension list. -/
def newAccepted (env : WatchEnv) (before : List DFile) (t : Nat) : Option DFile :=
  ((env.contents t).filter (fun f => !(decide (f ∈ before)))).find?
    (fun f => decide (strToLower f.suffix ∈ acceptedExts))

/-- The outer polling loop of `wait_for_download_completion` (lines 133-152),
with `rem` remaining ticks, current tick `t` and the pre-taken snapshot
`before`.  On detecting a new accepted file it enters the stabilization loop
with the same remaining budget and returns the file together with the tick of
the `return f`; when the timeout elapses it returns `none` (Python `None`). -/
def watchLoop (env : WatchEnv) (before : List DFile) : Nat → Nat → Option (DFile × Nat)
  | 0, _ => none
  | rem + 1, t =>
    match newAccepted env before t with
    | some f => some (stabilizeLoop env f (rem + 1) t (-1) 0)
    | none => watchLoop env before rem (t + 1)

/-- `wait_for_download_completion` instrumented with the tick at which the
file is returned: `start = time.time()` is tick 0, `before = set(dldir.glob("*"))`
is the snapshot taken at tick 0, and the loop starts with the full budget. -/
def waitT (env : WatchEnv) (timeout : Nat) : Option (DFile × Nat) :=
  watchLoop env (env.contents 0) timeout 0

/-- `wait_for_download_completion(dldir, timeout)` (lines 127-152).  Total by
construction: it returns the new stabilized (or timeout-interrupted) file, or
`none` on timeout, and cannot raise. -/
def wait_for_download_completion (env : WatchEnv) (timeout : Nat) : Option DFile :=
  (waitT env timeout).map Prod.fst

/-- A spreadsheet file used as a concrete download artifact. -/
def fileA : DFile := ⟨"report.xls", ".xls"⟩

/-- A spreadsheet file present before the run. -/
def oldXls : DFile := ⟨"old.xls", ".xls"⟩

/-- Environment in which `fileA` appears at tick 1 and its observed size is
different at every tick (a download that never stabilizes). -/
def envChanging : WatchEnv :=
  ⟨fun t => if t = 0 then [] else [fileA], fun _ t => t⟩

/-- Environment in which `fileA` appears at tick 1 with a constant size 7
(a download that is already complete). -/
def envStable : WatchEnv :=
  ⟨fun t => if t = 0 then [] else [fileA], fun _ _ => 7⟩

/-- Environment in which only the pre-existing `oldXls` is ever present. -/
def envPre : WatchEnv :=
  ⟨fun _ => [oldXls], fun _ _ => 0⟩

/-- Oracle for one `try_find_click` invocation (lines 75-101).  Each field is
the outcome of one selenium call on the resolved element: `wait_until` is
`wait.until(EC.element_to_be_clickable(...))`, `click1` the first direct
`el.click()`, `scrollScript` the `scrollIntoView` script, `click2` the
retried `el.click()`, and `clickScript` the forced
`driver.execute_script("arguments[0].click();", el)`. -/
structure ClickEnv where
  wait_until : Except PyExc Unit
  click1 : Except PyExc Unit
  scrollScript : Except PyExc Unit
  click2 : Except PyExc Unit
  clickScript : Except PyExc Unit

/-- `try_find_click(driver, wait, selector, by_type, timeout)` (lines 75-101),
exception view.  The outer `try` catches only TimeoutException (line 100),
returning False; the first `el.click()` is wrapped in
`except (ElementClickInterceptedException, Exception)`, which catches every
exception; the retried `el.click()` is wrapped in `except Exception`; but the
two `driver.execute_script` calls are not wrapped, so a non-timeout exception
they raise escapes to the caller.  An unknown `by_type` returns False
(line 88).  The `timeout` parameter mirrors the unused source parameter (see
`try_find_click_timed` for the timing view). -/
def try_find_click (env : ClickEnv) (by_type : String) (timeout : Nat) :
    Except PyExc Bool :=
  if by_type == "id" || by_type == "xpath" || by_type == "css" then
    match env.wait_until with
    | .error e => if e = PyExc.timeoutExc then .ok false else .error e
    | .ok _ =>
      match env.click1 with
      | .ok _ => .ok true
      | .error _ =>
        match env.scrollScript with
        | .error e => if e = PyExc.timeoutExc then .ok false else .error e
        | .ok _ =>
          match env.click2 with
          | .ok _ => .ok true
          | .error _ =>
            match env.clickScript with
            | .error e => if e = PyExc.timeoutExc then .ok false else .error e
            | .ok _ => .ok true
  else .ok false

/-- Polling semantics of `WebDriverWait(driver, waitTimeout).until(...)`:
the element is found iff it is clickable at some poll tick before the wait
object timeout elapses. -/
def wait_until_poll (clickableAt : Nat → Bool) (waitTimeout : Nat) : Bool :=
  (List.range waitTimeout).any clickableAt

/-- `try_find_click` (lines 75-101), timing view.  The body performs
`wait.until(...)` on the `wait` object created in `main` (line 291) as
`WebDriverWait(driver, 20)`; the function also has a `timeout` parameter
(default 10, passed as 8 or 10 at the call sites in lines 168, 208 and 226)
which the body never reads.  Hence the wait is bounded by `waitTimeout` (the
shared wait object timeout), and `timeout` is dead. -/
def try_find_click_timed (clickableAt : Nat → Bool) (waitTimeout : Nat)
    (timeout : Nat) : Bool :=
  wait_until_poll clickableAt waitTimeout

/-- One selector candidate of the static candidate lists (lines 40-60): the
locating strategy kind ("id", "xpath" or "css"); the selector expression
string itself is opaque data handed to the driver oracle, so it is elided. -/
structure SelectorCandidate where
  kind : String
deriving DecidableEq

/-- `YAXIS_LABEL_CANDIDATES` (lines 40-44): an id lookup and two xpath
expressions. -/
def YAXIS_LABEL_CANDIDATES : List SelectorCandidate := [⟨"id"⟩, ⟨"xpath"⟩, ⟨"xpath"⟩]

/-- `REFRESH_CANDIDATES` (lines 48-53): an id lookup, two xpath expressions
and a css fallback. -/
def REFRESH_CANDIDATES : List SelectorCandidate := [⟨"id"⟩, ⟨"xpath"⟩, ⟨"xpath"⟩, ⟨"css"⟩]

/-- `DOWNLOAD_CANDIDATES` (lines 55-60): an id lookup, two xpath expressions
and a css fallback. -/
def DOWNLOAD_CANDIDATES : List SelectorCandidate := [⟨"id"⟩, ⟨"xpath"⟩, ⟨"xpath"⟩, ⟨"css"⟩]

/-- The candidate resolution loop shape used at lines 167-170, 207-210 and
225-228:

    for by_type, sel in CANDIDATES:
        if try_find_click(driver, wait, sel, by_type, timeout=...):
            flag = True
            break

`env i` is the driver oracle for the i-th `try_find_click` invocation and `i`
the index of the current candidate; the result is the index of the candidate
whose click succeeded (`none` when the list is exhausted), and an exception
raised by `try_find_click` propagates (the loop has no handler). -/
def clickFirstCandidate (env : Nat → ClickEnv) (timeout : Nat) :
    List SelectorCandidate → Nat → Except PyExc (Option Nat)
  | [], _ => .ok none
  | c :: rest, i =>
    match try_find_click (env i) c.kind timeout with
    | .error e => .error e
    | .ok true => .ok (some i)
    | .ok false => clickFirstCandidate env timeout rest (i + 1)

/-- Oracle for one pattern attempt inside `find_list_item_and_click`
(lines 116-124): outcome of `wait.until`, of the `scrollIntoView` script and
of `el.click()`. -/
structure ItemEnv where
  wait_until : Except PyExc Unit
  scrollScript : Except PyExc Unit
  click : Except PyExc Unit

/-- One iteration body of `find_list_item_and_click` (lines 117-124): the
`try` covers the wait, the scroll script and the click, and its
`except TimeoutException: continue` turns a timeout into "try the next
pattern" (here `.ok false`); any other exception propagates. -/
def flicTryPattern (ienv : ItemEnv) : Except PyExc Bool :=
  match ienv.wait_until with
  | .error e => if e = PyExc.timeoutExc then .ok false else .error e
  | .ok _ =>
    match ienv.scrollScript with
    | .error e => if e = PyExc.timeoutExc then .ok false else .error e
    | .ok _ =>
      match ienv.click with
      | .error e => if e = PyExc.timeoutExc then .ok false else .error e
      | .ok _ => .ok true

/-- The `for p in patterns` loop of `find_list_item_and_click`
(lines 109-125), with `i` the index of the current pattern and the second
argument the number of patterns left to try. -/
def flicLoop (ienv : Nat → ItemEnv) : Nat → Nat → Except PyExc Bool
  | _, 0 => .ok false
  | i, rem + 1 =>
    match flicTryPattern (ienv i) with
    | .error e => .error e
    | .ok true => .ok true
    | .ok false => flicLoop ienv (i + 1) rem

/-- `find_list_item_and_click(driver, wait, option_text)` (lines 103-125):
tries the five xpath pattern shapes in order (the pattern strings themselves
are opaque selector data handed to the driver oracle). -/
def find_list_item_and_click (ienv : Nat → ItemEnv) : Except PyExc Bool :=
  flicLoop ienv 0 5

/-- Python `needle in hay` substring test. -/
def strIn (needle hay : String) : Bool := decide (needle.data <:+: hay.data)

/-- `YAXIS_OPTIONS` (line 46). -/
def YAXIS_OPTIONS : List String :=
  ["Maker", "Vehicle Category", "Vehicle Type", "Maker Name", "Category"]

/-- The fuzzy fallback of step 2 (lines 192-197): for each candidate label
(paired with its index into `YAXIS_OPTIONS`), if the lowercased target label
is a substring of the lowercased candidate, run `find_list_item_and_click`
on it and stop at the first success; exceptions propagate. -/
def fuzzyChoose (fenv : Nat → Nat → ItemEnv) (option_label : String) :
    List (Nat × String) → Except PyExc Bool
  | [] => .ok false
  | (i, cand) :: rest =>
    if strIn (strToLower option_label) (strToLower cand) then
      match find_list_item_and_click (fenv i) with
      | .error e => .error e
      | .ok true => .ok true
      | .ok false => fuzzyChoose fenv option_label rest
    else fuzzyChoose fenv option_label rest

/-- Oracle for one link in the export last-resort scan (lines 234-242):
outcome of the scroll script and of `l.click()`. -/
structure LinkEnv where
  scrollScript : Except PyExc Unit
  click : Except PyExc Unit

/-- The `for l in links` loop of the export fallback (lines 234-242): each
iteration is wrapped in `except Exception: continue`, so any failure moves to
the next link; success returns True. -/
def exportLinksLoop (lenv : Nat → LinkEnv) : Nat → Nat → Bool
  | _, 0 => false
  | i, rem + 1 =>
    match (lenv i).scrollScript with
    | .error _ => exportLinksLoop lenv (i + 1) rem
    | .ok _ =>
      match (lenv i).click with
      | .error _ => exportLinksLoop lenv (i + 1) rem
      | .ok _ => true

/-- Driver oracle for one full `perform_download_cycle` (lines 154-260).
`navigate` is `driver.get(URL)`; `yaxisEnv i` the oracle for the i-th
Y-axis candidate click; `yaxisFallback` the find-element-plus-js fallback of
lines 174-179 (wrapped in `except Exception: pass`); `itemEnv` the per-pattern
oracles for the exact-label `find_list_item_and_click`; `fuzzyItemEnv i` the
per-pattern oracles when retrying with the i-th `YAXIS_OPTIONS` synonym;
`refreshEnv` and `exportEnv` the per-candidate oracles of steps 3 and 4;
`findLinks` the number of links returned by the last-resort
`driver.find_elements` scan (or the exception it raises); `linkEnv` the
per-link oracles; `watch` the filesystem oracle for step 5. -/
structure CycleEnv where
  navigate : Except PyExc Unit
  yaxisEnv : Nat → ClickEnv
  yaxisFallback : Except PyExc Unit
  itemEnv : Nat → ItemEnv
  fuzzyItemEnv : Nat → Nat → ItemEnv
  refreshEnv : Nat → ClickEnv
  exportEnv : Nat → ClickEnv
  findLinks : Except PyExc Nat
  linkEnv : Nat → LinkEnv
  watch : WatchEnv

/-- The export last-resort scan (lines 230-244): `driver.find_elements` is
wrapped in an outer `except Exception: pass` (so a raising scan leaves
`dl_candidate_clicked` False), and each link click attempt swallows its own
exceptions. -/
def exportLinksFallback (env : CycleEnv) : Bool :=
  match env.findLinks with
  | .error _ => false
  | .ok n => exportLinksLoop env.linkEnv 0 n

/-- `perform_download_cycle(driver, wait, option_label)` (lines 154-260).
The body has no try/except of its own: an exception raised by
`driver.get`, by a candidate loop, by `find_list_item_and_click` or by the
fuzzy fallback propagates out of the function (`.error`).  Internal failures
take the snapshot-and-`return None` paths (`.ok none`); the refresh step is
best-effort and never aborts (lines 211-217, its fallback script swallows
its own exceptions and `refreshed` has no effect on control flow). -/
def perform_download_cycle (env : CycleEnv) (option_label : String) :
    Except PyExc (Option DFile) :=
  match env.navigate with
  | .error e => .error e
  | .ok _ =>
    match clickFirstCandidate env.yaxisEnv 8 YAXIS_LABEL_CANDIDATES 0 with
    | .error e => .error e
    | .ok r1 =>
      let opened : Bool :=
        match r1 with
        | some _ => true
        | none =>
          match env.yaxisFallback with
          | .ok _ => true
          | .error _ => false
      if opened then
        match find_list_item_and_click env.itemEnv with
        | .error e => .error e
        | .ok chosen1 =>
          match (if chosen1 then Except.ok true
                 else fuzzyChoose env.fuzzyItemEnv option_label YAXIS_OPTIONS.enum) with
          | .error e => .error e
          | .ok false => .ok none
          | .ok true =>
            match clickFirstCandidate env.refreshEnv 10 REFRESH_CANDIDATES 0 with
            | .error e => .error e
            | .ok _ =>
              match clickFirstCandidate env.exportEnv 8 DOWNLOAD_CANDIDATES 0 with
              | .error e => .error e
              | .ok r4 =>
                let clicked : Bool :=
                  match r4 with
                  | some _ => true
                  | none => exportLinksFallback env
                if clicked then
                  match wait_for_download_completion env.watch 25 with
                  | some f => .ok (some f)
                  | none => .ok none
                else .ok none
      else .ok none

/-- The cleanup extension patterns of line 264 (`"*.xls", "*.xlsx", "*.csv"`,
identified by the suffix they match). -/
def cleanupPatterns : List String := [".xls", ".xlsx", ".csv"]

/-- `DOWNLOAD_DIR.glob(ext)` over the directory state `fs`: the files whose
suffix matches the pattern. -/
def globPat (fs : List DFile) (ext : String) : List DFile :=
  fs.filter (fun f => f.suffix == ext)

/-- The inner loop of `cleanup_old_downloads` (lines 265-269): unlink each
matched file, swallowing per-file failures (`except Exception: pass`).
`unlinkFails f = true` means `f.unlink()` raises, leaving `f` in place. -/
def unlinkPass (unlinkFails : DFile → Bool) (fs files : List DFile) : List DFile :=
  files.foldl
    (fun s f => if unlinkFails f then s else s.filter (fun g => !(g == f))) fs

/-- `cleanup_old_downloads()` (lines 262-269) acting on the directory state:
for each of the three patterns, glob the current state and unlink every
match, ignoring unlink errors. -/
def cleanup_old_downloads (unlinkFails : DFile → Bool) (fs : List DFile) :
    List DFile :=
  cleanupPatterns.foldl (fun s ext => unlinkPass unlinkFails s (globPat s ext)) fs

/-- Outcome of the per-target retry loop in `main` (lines 300-316): the file
downloaded for the target (if any), the number of `perform_download_cycle`
invocations made, and the diagnostic snapshots taken by the per-attempt
exception handler (line 313). -/
structure TargetResult where
  file : Option DFile
  attempts : Nat
  snapshots : List String
deriving DecidableEq

/-- The `for attempt in range(1, 4)` retry loop of `main` (lines 302-316),
with `rem` the attempts left and `attempt` the current attempt number.
A cycle returning a file stops the loop at once (line 307); a cycle
returning None sleeps and retries (lines 308-310); a cycle raising is caught
by the per-attempt `except Exception` handler, which records a diagnostic
snapshot and retries (lines 311-314); the `for`-`else` (line 315) marks the
target failed after the attempts are exhausted. -/
def runTargetLoop (opt : String) (cyc : Nat → Except PyExc (Option DFile)) :
    Nat → Nat → List String → TargetResult
  | 0, attempt, snaps => ⟨none, attempt - 1, snaps⟩
  | rem + 1, attempt, snaps =>
    match cyc attempt with
    | .ok (some f) => ⟨some f, attempt, snaps⟩
    | .ok none => runTargetLoop opt cyc rem (attempt + 1) snaps
    | .error _ => runTargetLoop opt cyc rem (attempt + 1) (snaps ++ ["exception_" ++ opt])

/-- The retry loop for one target: up to 3 attempts starting at attempt 1
with no snapshots yet. -/
def runTarget (opt : String) (cyc : Nat → Except PyExc (Option DFile)) :
    TargetResult :=
  runTargetLoop opt cyc 3 1 []

/-- `options_to_fetch` (line 295). -/
def options_to_fetch : List String := ["Maker", "Vehicle Category"]

/-- The `for opt in options_to_fetch` loop of `main` (lines 300-316) together
with the summary it reports (lines 318-323): the downloaded files in target
order and the targets for which all attempts failed.  `cycOf opt k` is the
outcome of `perform_download_cycle` at attempt `k` for target `opt`. -/
def runTargets (cycOf : String → Nat → Except PyExc (Option DFile)) :
    List String → List DFile × List String
  | [] => ([], [])
  | opt :: rest =>
    let r := runTarget opt (cycOf opt)
    let rs := runTargets cycOf rest
    match r.file with
    | some f => (f :: rs.1, rs.2)
    | none => (rs.1, opt :: rs.2)

/-- The body of the `try` block in `main` (lines 294-323): first
`cleanup_old_downloads()` (line 297) transforms the initial download
directory state, then the target loop runs.  The pair holds the run summary
and the directory state as the first cycle begins. -/
def mainBody (unlinkFails : DFile → Bool) (fs0 : List DFile)
    (cycOf : String → Nat → Except PyExc (Option DFile)) :
    (List DFile × List String) × List DFile :=
  let fsStart := cleanup_old_downloads unlinkFails fs0
  (runTargets cycOf options_to_fetch, fsStart)

/-- Result of a whole `main` run: the outcome of the try body (a raised
exception or the summary) and the number of `driver.quit()` invocations. -/
structure RunResult where
  outcome : Except PyExc (List DFile × List String)
  quitCalls : Nat

/-- The teardown in the `finally` block (lines 325-328):
`try: driver.quit() except Exception: pass` — whatever `driver.quit()` does,
the teardown itself never raises. -/
def quitTeardown (quitResult : Except PyExc Unit) : Except PyExc Unit :=
  match quitResult with
  | .ok _ => .ok ()
  | .error _ => .ok ()

/-- The `try ... finally` of `main` (lines 293-328): the finally clause runs
the teardown exactly once whether the body returned or raised; a raising
finally clause would replace the outcome, but `quitTeardown` never raises. -/
def mainRun (body : Except PyExc (List DFile × List String))
    (quitResult : Except PyExc Unit) : RunResult :=
  match quitTeardown quitResult with
  | .ok _ => ⟨body, 1⟩
  | .error e => ⟨.error e, 1⟩

/-- A click oracle in which every selenium call succeeds. -/
def clickOk : ClickEnv := ⟨.ok (), .ok (), .ok (), .ok (), .ok ()⟩

/-- A click oracle in which the element never becomes clickable: `wait.until`
raises TimeoutException. -/
def clickTimeout : ClickEnv := ⟨.error PyExc.timeoutExc, .ok (), .ok (), .ok (), .ok ()⟩

/-- A click oracle in which the direct click and the retried click are
intercepted and the forced script activation itself raises: all three tiers
fail. -/
def clickTier3Raises : ClickEnv :=
  ⟨.ok (), .error PyExc.elementClickIntercepted, .ok (),
   .error PyExc.elementClickIntercepted, .error (PyExc.otherExc "js error")⟩

/-- An item-pattern oracle in which every call succeeds. -/
def itemOk : ItemEnv := ⟨.ok (), .ok (), .ok ()⟩

/-- A cycle oracle in which every step succeeds at its first candidate and
the export produces the stable `fileA`. -/
def envCycleOk : CycleEnv where
  navigate := .ok ()
  yaxisEnv := fun _ => clickOk
  yaxisFallback := .ok ()
  itemEnv := fun _ => itemOk
  fuzzyItemEnv := fun _ _ => itemOk
  refreshEnv := fun _ => clickOk
  exportEnv := fun _ => clickOk
  findLinks := .ok 0
  linkEnv := fun _ => ⟨.ok (), .ok ()⟩
  watch := envStable

/-- A cycle oracle in which `driver.get(URL)` raises an unexpected
exception. -/
def envNavFail : CycleEnv where
  navigate := .error (PyExc.otherExc "connection reset")
  yaxisEnv := fun _ => clickOk
  yaxisFallback := .ok ()
  itemEnv := fun _ => itemOk
  fuzzyItemEnv := fun _ _ => itemOk
  refreshEnv := fun _ => clickOk
  exportEnv := fun _ => clickOk
  findLinks := .ok 0
  linkEnv := fun _ => ⟨.ok (), .ok ()⟩
  watch := envStable

/-- Per-attempt cycle oracles: the first attempt raises on navigation, the
second succeeds fully. -/
def envsW : Nat → CycleEnv := fun k => if k = 1 then envNavFail else envCycleOk

/-- A per-attempt cycle outcome function whose attempt 1 finds no file and
whose attempt 2 downloads `fileA`. -/
def cycW : Nat → Except PyExc (Option DFile) :=
  fun k => if k = 2 then .ok (some fileA) else .ok none

/-- A per-target, per-attempt cycle outcome function: every attempt for
"Maker" finds no file, and the first attempt for any other target downloads
`fileA`. -/
def cycOfW : String → Nat → Except PyExc (Option DFile) :=
  fun opt k =>
    if opt = "Maker" then .ok none
    else if k = 1 then .ok (some fileA) else .ok none

/-- A candidate-indexed click oracle in which candidate 0 times out and every
later candidate succeeds. -/
def envSecondHit : Nat → ClickEnv := fun k => if k = 0 then clickTimeout else clickOk

/-- The stabilization loop always returns the file it was given: the source
executes `return f` on every exit of the inner while loop. -/
lemma stabilizeLoop_fst (env : WatchEnv) (f : DFile) :
    ∀ (rem t : Nat) (prev : Int) (stable : Nat),
      (stabilizeLoop env f rem t prev stable).1 = f := by
  intro rem
  induction rem with
  | zero => intro t prev stable; rfl
  | succ rem ih =>
    intro t prev stable
    by_cases hs : stable < 3
    · by_cases he : (env.size f t : Int) = prev
      · simp only [stabilizeLoop, if_pos hs, if_pos he]; exact ih _ _ _
      · simp only [stabilizeLoop, if_pos hs, if_neg he]; exact ih _ _ _
    · simp only [stabilizeLoop, if_neg hs]

/-- Invariant analysis of the stabilization loop: the loop returns `f` at a
tick `tr` between `t` and `t + rem`; when the return happens strictly before
the budget is exhausted, the exit was caused by `stable_count` reaching 3,
which means the last four size samples (at ticks `tr-4` to `tr-1`) were all
equal.  The hypotheses are the loop invariant relating `stable` and `prev`
to the sample history. -/
lemma stabilizeLoop_chain (env : WatchEnv) (f : DFile) :
    ∀ (rem t : Nat) (prev : Int) (stable : Nat),
      stable ≤ 3 →
      (stable ≠ 0 → stable + 1 ≤ t) →
      (∀ j, j < stable → env.size f (t - 1 - j) = env.size f (t - 2 - j)) →
      (prev = -1 ∨ (1 ≤ t ∧ prev = (env.size f (t - 1) : Int))) →
      ∃ tr, stabilizeLoop env f rem t prev stable = (f, tr) ∧
        t ≤ tr ∧ tr ≤ t + rem ∧
        (tr < t + rem → 4 ≤ tr ∧
          env.size f (tr - 1) = env.size f (tr - 2) ∧
          env.size f (tr - 2) = env.size f (tr - 3) ∧
          env.size f (tr - 3) = env.size f (tr - 4)) := by
  intro rem
  induction rem with
  | zero =>
    intro t prev stable _ _ _ _
    exact ⟨t, rfl, Nat.le_refl t, by omega, fun h => absurd h (by omega)⟩
  | succ rem ih =>
    intro t prev stable h3 ht hch hprev
    by_cases hs : stable < 3
    · by_cases he : (env.size f t : Int) = prev
      · -- size == prev_size: stable_count += 1
        have hps : 1 ≤ t ∧ prev = (env.size f (t - 1) : Int) := by
          rcases hprev with h | h
          · exfalso; rw [h] at he; omega
          · exact h
        obtain ⟨hp1, hp2⟩ := hps
        have heq : env.size f t = env.size f (t - 1) := by
          have h2 := he.trans hp2
          exact_mod_cast h2
        have hstep := ih (t + 1) ((env.size f t : Int)) (stable + 1)
          (by omega)
          (by intro _
              rcases Nat.eq_zero_or_pos stable with h0 | h0
              · omega
              · have := ht (by omega); omega)
          (by intro j hj
              rcases Nat.eq_zero_or_pos j with hj0 | hj0
              · subst hj0
                have e1 : t + 1 - 1 - 0 = t := by omega
                have e2 : t + 1 - 2 - 0 = t - 1 := by omega
                rw [e1, e2]; exact heq
              · obtain ⟨j0, rfl⟩ : ∃ j0, j = j0 + 1 := ⟨j - 1, by omega⟩
                have hc := hch j0 (by omega)
                have e1 : t + 1 - 1 - (j0 + 1) = t - 1 - j0 := by omega
                have e2 : t + 1 - 2 - (j0 + 1) = t - 2 - j0 := by omega
                rw [e1, e2]; exact hc)
          (Or.inr ⟨by omega, by simp only [Nat.add_sub_cancel]⟩)
        obtain ⟨tr, hres, hlo, hhi, hcond⟩ := hstep
        refine ⟨tr, ?_, by omega, by omega, fun h => hcond (by omega)⟩
        simp only [stabilizeLoop, if_pos hs, if_pos he]
        exact hres
      · -- sizes differ: stable_count = 0
        have hstep := ih (t + 1) ((env.size f t : Int)) 0
          (by omega)
          (fun h => absurd rfl h)
          (by intro j hj; exact absurd hj (by omega))
          (Or.inr ⟨by omega, by simp only [Nat.add_sub_cancel]⟩)
        obtain ⟨tr, hres, hlo, hhi, hcond⟩ := hstep
        refine ⟨tr, ?_, by omega, by omega, fun h => hcond (by omega)⟩
        simp only [stabilizeLoop, if_pos hs, if_neg he]
        exact hres
    · -- stable_count has reached 3: the loop exits returning f at tick t
      have hs3 : stable = 3 := by omega
      subst hs3
      refine ⟨t, by simp only [stabilizeLoop, if_neg hs], Nat.le_refl t, by omega, ?_⟩
      intro _
      have h4 : 4 ≤ t := ht (by omega)
      refine ⟨h4, ?_, ?_, ?_⟩
      · have hc := hch 0 (by omega)
        have e1 : t - 1 - 0 = t - 1 := by omega
        have e2 : t - 2 - 0 = t - 2 := by omega
        rw [e1, e2] at hc; exact hc
      · have hc := hch 1 (by omega)
        have e1 : t - 1 - 1 = t - 2 := by omega
        have e2 : t - 2 - 1 = t - 3 := by omega
        rw [e1, e2] at hc; exact hc
      · have hc := hch 2 (by omega)
        have e1 : t - 1 - 2 = t - 3 := by omega
        have e2 : t - 2 - 2 = t - 4 := by omega
        rw [e1, e2] at hc; exact hc

/-- A file produced by the directory scan is new relative to the snapshot and
has an accepted suffix. -/
lemma newAccepted_spec (env : WatchEnv) (before : List DFile) (t : Nat) (g : DFile)
    (h : newAccepted env before t = some g) :
    g ∈ env.contents t ∧ g ∉ before ∧ strToLower g.suffix ∈ acceptedExts := by
  unfold newAccepted at h
  have hmem := List.mem_of_find?_eq_some h
  have hp := List.find?_some h
  have hf := List.mem_filter.mp hmem
  refine ⟨hf.1, ?_, ?_⟩
  · have := hf.2
    simp only [Bool.not_eq_true', decide_eq_false_iff_not] at this
    exact this
  · simpa using hp

/-- If the watch loop returns a file, the return tick is within the budget,
and a return strictly inside the budget carries the four-equal-samples
stabilization evidence. -/
lemma watchLoop_ret (env : WatchEnv) (before : List DFile) :
    ∀ (rem t : Nat) (f : DFile) (tr : Nat),
      watchLoop env before rem t = some (f, tr) →
      tr ≤ t + rem ∧
      (tr < t + rem → 4 ≤ tr ∧
        env.size f (tr - 1) = env.size f (tr - 2) ∧
        env.size f (tr - 2) = env.size f (tr - 3) ∧
        env.size f (tr - 3) = env.size f (tr - 4)) := by
  intro rem
  induction rem with
  | zero => intro t f tr h; exact absurd h (by simp [watchLoop])
  | succ rem ih =>
    intro t f tr h
    rw [watchLoop] at h
    cases hna : newAccepted env before t with
    | some g =>
      rw [hna] at h
      have h2 : some (stabilizeLoop env g (rem + 1) t (-1) 0) = some (f, tr) := h
      obtain ⟨tr2, hres, hlo, hhi, hcond⟩ :=
        stabilizeLoop_chain env g (rem + 1) t (-1) 0 (by omega)
          (fun h0 => absurd rfl h0) (fun j hj => absurd hj (by omega)) (Or.inl rfl)
      rw [hres] at h2
      have h3 := Option.some.inj h2
      have hfg : g = f := congrArg Prod.fst h3
      have htr : tr2 = tr := congrArg Prod.snd h3
      subst hfg; subst htr
      exact ⟨hhi, hcond⟩
    | none =>
      rw [hna] at h
      have := ih (t + 1) f tr h
      exact ⟨by omega, fun hlt => this.2 (by omega)⟩

/-- If the watch loop returns a file, that file was absent from the snapshot
and has an accepted suffix. -/
lemma watchLoop_new (env : WatchEnv) (before : List DFile) :
    ∀ (rem t : Nat) (f : DFile) (tr : Nat),
      watchLoop env before rem t = some (f, tr) →
      f ∉ before ∧ strToLower f.suffix ∈ acceptedExts := by
  intro rem
  induction rem with
  | zero => intro t f tr h; exact absurd h (by simp [watchLoop])
  | succ rem ih =>
    intro t f tr h
    rw [watchLoop] at h
    cases hna : newAccepted env before t with
    | some g =>
      rw [hna] at h
      have h2 : some (stabilizeLoop env g (rem + 1) t (-1) 0) = some (f, tr) := h
      have hg := newAccepted_spec env before t g hna
      have hfst := stabilizeLoop_fst env g (rem + 1) t (-1) 0
      have hfg : g = f := by
        have h3 := Option.some.inj h2
        have h4 : (stabilizeLoop env g (rem + 1) t (-1) 0).1 = f := by rw [h3]
        exact hfst.symm.trans h4
      subst hfg
      exact ⟨hg.2.1, hg.2.2⟩
    | none =>
      rw [hna] at h
      exact ih (t + 1) f tr h

/-- If no tick within the budget shows a new accepted file, the watch loop
returns `none`. -/
lemma watchLoop_none (env : WatchEnv) (before : List DFile) :
    ∀ (rem t : Nat),
      (∀ u, t ≤ u → u < t + rem → newAccepted env before u = none) →
      watchLoop env before rem t = none := by
  intro rem
  induction rem with
  | zero => intro t _; rfl
  | succ rem ih =>
    intro t h
    rw [watchLoop]
    rw [h t (Nat.le_refl t) (by omega)]
    exact ih (t + 1) (fun u h1 h2 => h u (by omega) (by omega))

/-- If every accepted file visible at tick `u` was already in the snapshot,
the scan at tick `u` finds nothing. -/
lemma newAccepted_none_of_old (env : WatchEnv) (before : List DFile) (u : Nat)
    (h : ∀ f, f ∈ env.contents u → strToLower f.suffix ∈ acceptedExts → f ∈ before) :
    newAccepted env before u = none := by
  unfold newAccepted
  rw [List.find?_eq_none]
  intro g hg
  have hf := List.mem_filter.mp hg
  have hnb : g ∉ before := by
    have := hf.2
    simp only [Bool.not_eq_true', decide_eq_false_iff_not] at this
    exact this
  simp only [decide_eq_true_eq]
  intro hacc
  exact hnb (h g hf.1 hacc)

/-- The retry loop never makes more cycle invocations than its remaining
budget allows. -/
lemma runTargetLoop_attempts_le (opt : String)
    (cyc : Nat → Except PyExc (Option DFile)) :
    ∀ (rem attempt : Nat) (snaps : List String),
      (runTargetLoop opt cyc rem attempt snaps).attempts ≤ attempt + rem - 1 := by
  intro rem
  induction rem with
  | zero => intro attempt snaps; simp [runTargetLoop]
  | succ rem ih =>
    intro attempt snaps
    cases h : cyc attempt with
    | ok r =>
      cases r with
      | some f => simp only [runTargetLoop, h]; omega
      | none =>
        simp only [runTargetLoop, h]
        have := ih (attempt + 1) snaps; omega
    | error e =>
      simp only [runTargetLoop, h]
      have := ih (attempt + 1) (snaps ++ ["exception_" ++ opt]); omega

/-- If no attempt in the remaining window returns a file, the retry loop
reports no file and uses every remaining attempt. -/
lemma runTargetLoop_no_success (opt : String)
    (cyc : Nat → Except PyExc (Option DFile)) :
    ∀ (rem attempt : Nat) (snaps : List String),
      (∀ k g, attempt ≤ k → k < attempt + rem → cyc k ≠ .ok (some g)) →
      (runTargetLoop opt cyc rem attempt snaps).file = none ∧
      (runTargetLoop opt cyc rem attempt snaps).attempts = attempt + rem - 1 := by
  intro rem
  induction rem with
  | zero => intro attempt snaps _; simp [runTargetLoop]
  | succ rem ih =>
    intro attempt snaps hno
    cases h : cyc attempt with
    | ok r =>
      cases r with
      | some f => exact absurd h (hno attempt f (Nat.le_refl _) (by omega))
      | none =>
        simp only [runTargetLoop, h]
        have := ih (attempt + 1) snaps (fun k g h1 h2 => hno k g (by omega) (by omega))
        exact ⟨this.1, by omega⟩
    | error e =>
      simp only [runTargetLoop, h]
      have := ih (attempt + 1) (snaps ++ ["exception_" ++ opt])
        (fun k g h1 h2 => hno k g (by omega) (by omega))
      exact ⟨this.1, by omega⟩

/-- If attempt `k` is the first one to return a file, the retry loop stops
there: it reports that file and exactly `k` cycle invocations. -/
lemma runTargetLoop_first_success (opt : String)
    (cyc : Nat → Except PyExc (Option DFile)) :
    ∀ (rem attempt : Nat) (snaps : List String) (k : Nat) (f : DFile),
      attempt ≤ k → k < attempt + rem →
      (∀ j g, attempt ≤ j → j < k → cyc j ≠ .ok (some g)) →
      cyc k = .ok (some f) →
      (runTargetLoop opt cyc rem attempt snaps).file = some f ∧
      (runTargetLoop opt cyc rem attempt snaps).attempts = k := by
  intro rem
  induction rem with
  | zero => intro attempt snaps k f h1 h2 _ _; omega
  | succ rem ih =>
    intro attempt snaps k f h1 h2 hno hk
    by_cases hak : attempt = k
    · subst hak
      simp only [runTargetLoop, hk]
      simp
    · have hlt : attempt < k := by omega
      cases h : cyc attempt with
      | ok r =>
        cases r with
        | some g => exact absurd h (hno attempt g (Nat.le_refl _) hlt)
        | none =>
          simp only [runTargetLoop, h]
          exact ih (attempt + 1) snaps k f (by omega) (by omega)
            (fun j g hj1 hj2 => hno j g (by omega) hj2) hk
      | error e =>
        simp only [runTargetLoop, h]
        exact ih (attempt + 1) (snaps ++ ["exception_" ++ opt]) k f (by omega) (by omega)
          (fun j g hj1 hj2 => hno j g (by omega) hj2) hk

/-- Membership after one pattern pass of the cleanup loop: a file survives
iff it was in the state and either was not matched or its unlink raised. -/
lemma mem_unlinkPass (u : DFile → Bool) :
    ∀ (files fs : List DFile) (x : DFile),
      x ∈ unlinkPass u fs files ↔ x ∈ fs ∧ (x ∈ files → u x = true) := by
  intro files
  induction files with
  | nil => intro fs x; simp [unlinkPass]
  | cons f rest ih =>
    intro fs x
    have hstep : unlinkPass u fs (f :: rest) =
        unlinkPass u (if u f then fs else fs.filter (fun g => !(g == f))) rest := by
      simp [unlinkPass]
    rw [hstep, ih]
    by_cases huf : u f = true
    · rw [if_pos huf]
      constructor
      · rintro ⟨hfs, hr⟩
        refine ⟨hfs, ?_⟩
        intro hm
        rcases List.mem_cons.mp hm with hx | hx
        · subst hx; exact huf
        · exact hr hx
      · rintro ⟨hfs, hr⟩
        exact ⟨hfs, fun hm => hr (List.mem_cons_of_mem f hm)⟩
    · rw [if_neg huf]
      have hfil : x ∈ fs.filter (fun g => !(g == f)) ↔ x ∈ fs ∧ x ≠ f := by
        simp [List.mem_filter]
      rw [hfil]
      constructor
      · rintro ⟨⟨hfs, hne⟩, hr⟩
        refine ⟨hfs, ?_⟩
        intro hm
        rcases List.mem_cons.mp hm with hx | hx
        · exact absurd hx hne
        · exact hr hx
      · rintro ⟨hfs, hr⟩
        by_cases hx : x = f
        · subst hx
          exact absurd (hr (List.mem_cons_self x rest)) huf
        · exact ⟨⟨hfs, hx⟩, fun hm => hr (List.mem_cons_of_mem f hm)⟩

/-- Membership in a glob result. -/
lemma mem_globPat (fs : List DFile) (ext : String) (x : DFile) :
    x ∈ globPat fs ext ↔ x ∈ fs ∧ x.suffix = ext := by
  simp [globPat, List.mem_filter]

/-- Membership after the full cleanup: a file survives iff it was present
and either no pattern matches its suffix or its unlink raised. -/
lemma mem_cleanup (u : DFile → Bool) (fs : List DFile) (x : DFile) :
    x ∈ cleanup_old_downloads u fs ↔
      x ∈ fs ∧ (x.suffix ∉ cleanupPatterns ∨ u x = true) := by
  show x ∈ List.foldl _ fs cleanupPatterns ↔ _
  have hexp : cleanupPatterns = [".xls", ".xlsx", ".csv"] := rfl
  rw [hexp]
  simp only [List.foldl_cons, List.foldl_nil]
  simp only [mem_unlinkPass, mem_globPat, List.mem_cons, List.not_mem_nil, or_false]
  tauto

/-- If the first `i` candidates fail and candidate `i` succeeds, the
resolution loop started at index `i0` clicks candidate `i0 + i`. -/
lemma clickFirst_hit (timeout : Nat) :
    ∀ (cands : List SelectorCandidate) (env : Nat → ClickEnv) (i0 i : Nat)
      (hi : i < cands.length),
      (∀ j (hj : j < i),
        try_find_click (env (i0 + j)) ((cands.get ⟨j, by omega⟩).kind) timeout = .ok false) →
      try_find_click (env (i0 + i)) ((cands.get ⟨i, hi⟩).kind) timeout = .ok true →
      clickFirstCandidate env timeout cands i0 = .ok (some (i0 + i)) := by
  intro cands
  induction cands with
  | nil => intro env i0 i hi; exact absurd hi (by simp)
  | cons c rest ih =>
    intro env i0 i hi hfail hsucc
    cases i with
    | zero =>
      have hc : (List.get (c :: rest) ⟨0, hi⟩).kind = c.kind := rfl
      rw [hc, Nat.add_zero] at hsucc
      simp only [clickFirstCandidate, hsucc, Nat.add_zero]
    | succ i =>
      have h0 := hfail 0 (by omega)
      have hc : (List.get (c :: rest) ⟨0, by omega⟩).kind = c.kind := rfl
      rw [hc, Nat.add_zero] at h0
      simp only [clickFirstCandidate, h0]
      have harith : i0 + (i + 1) = (i0 + 1) + i := by omega
      rw [harith]
      exact ih env (i0 + 1) i (by simpa using Nat.lt_of_succ_lt_succ hi)
        (fun j hj => by
          have := hfail (j + 1) (by omega)
          have harith2 : i0 + (j + 1) = i0 + 1 + j := by omega
          rw [harith2] at this
          exact this)
        (by
          have harith3 : i0 + 1 + i = i0 + (i + 1) := by omega
          rw [harith3]
          exact hsucc)

/-- If every candidate in the list fails, the resolution loop reports
not-found. -/
lemma clickFirst_exhausted (timeout : Nat) :
    ∀ (cands : List SelectorCandidate) (env : Nat → ClickEnv) (i0 : Nat),
      (∀ j (hj : j < cands.length),
        try_find_click (env (i0 + j)) ((cands.get ⟨j, hj⟩).kind) timeout = .ok false) →
      clickFirstCandidate env timeout cands i0 = .ok none := by
  intro cands
  induction cands with
  | nil => intro env i0 _; rfl
  | cons c rest ih =>
    intro env i0 hfail
    have h0 := hfail 0 (by simp)
    have hc : (List.get (c :: rest) ⟨0, by simp⟩).kind = c.kind := rfl
    rw [hc, Nat.add_zero] at h0
    simp only [clickFirstCandidate, h0]
    exact ih env (i0 + 1)
      (fun j hj => by
        have := hfail (j + 1) (by simpa using Nat.succ_lt_succ hj)
        have harith : i0 + (j + 1) = i0 + 1 + j := by omega
        rw [harith] at this
        exact this)

/-- If attempt 1 raises and attempt 2 downloads a file, the retry loop
catches the fault, records a diagnostic snapshot for it, and succeeds on
attempt 2. -/
lemma runTarget_fault_then_success (opt : String)
    (cyc : Nat → Except PyExc (Option DFile)) (e : PyExc) (f : DFile)
    (h1 : cyc 1 = .error e) (h2 : cyc 2 = .ok (some f)) :
    runTarget opt cyc = ⟨some f, 2, ["exception_" ++ opt]⟩ := by
  have e1 : runTarget opt cyc = runTargetLoop opt cyc 2 2 ["exception_" ++ opt] := by
    show runTargetLoop opt cyc (2 + 1) 1 [] = _
    simp only [runTargetLoop, h1, List.nil_append]
  have e2 : runTargetLoop opt cyc 2 2 ["exception_" ++ opt] =
      ⟨some f, 2, ["exception_" ++ opt]⟩ := by
    show runTargetLoop opt cyc (1 + 1) 2 _ = _
    simp only [runTargetLoop, h2]
  exact e1.trans e2

/-- Claim C1, counterexample.  In `envChanging` the new accepted file
`fileA` shows a different size at every tick of the 5-tick window, yet
`wait_for_download_completion` still returns it: when the overall timeout
elapses during size sampling, the inner loop exits and the source executes
`return f` with no stabilization evidence, contradicting the claim that such
a file is never returned. -/
theorem c1_counterexample_unstable_file_returned :
    wait_for_download_completion envChanging 5 = some fileA ∧
    ((List.range 6).all
      (fun u => !(envChanging.size fileA (u + 1) == envChanging.size fileA u))) = true :=
  ⟨by decide, by decide⟩

/-- Claim C1 (amended): when the instrumented watcher returns a file at tick
`tret`, either the overall timeout elapsed during the size sampling
(`timeout ≤ tret`) — in which case the file is returned without any
stabilization guarantee — or the return happened strictly inside the window,
and then the exit was caused by `stable_count` reaching 3, i.e. the file
size was observed identical on four consecutive samples (three consecutive
identical comparisons), at ticks `tret-4` through `tret-1`. -/
theorem c1_stabilized_or_timeout (env : WatchEnv) (timeout : Nat) (f : DFile)
    (tret : Nat) (h : waitT env timeout = some (f, tret)) :
    timeout ≤ tret ∨
      (4 ≤ tret ∧
        env.size f (tret - 1) = env.size f (tret - 2) ∧
        env.size f (tret - 2) = env.size f (tret - 3) ∧
        env.size f (tret - 3) = env.size f (tret - 4)) := by
  have hr := watchLoop_ret env (env.contents 0) timeout 0 f tret h
  by_cases hlt : tret < timeout
  · exact Or.inr (hr.2 (by omega))
  · exact Or.inl (by omega)

/-- Witness for C1: in `envStable` the watcher returns `fileA` at tick 5,
inside the 30-tick window, with the stabilization evidence. -/
theorem c1_stabilized_or_timeout_witness :
    30 ≤ 5 ∨
      (4 ≤ 5 ∧
        envStable.size fileA (5 - 1) = envStable.size fileA (5 - 2) ∧
        envStable.size fileA (5 - 2) = envStable.size fileA (5 - 3) ∧
        envStable.size fileA (5 - 3) = envStable.size fileA (5 - 4)) :=
  c1_stabilized_or_timeout envStable 30 fileA 5 (by decide)

/-- Claim C2: if within the timeout window every file carrying an accepted
extension was already in the snapshot the watcher takes at its start, then
`wait_for_download_completion` returns `none` (it is total, so it cannot
raise); and any file it does return was absent from that snapshot and has an
accepted extension — pre-existing files are never returned. -/
theorem c2_none_on_timeout_and_preexisting_ignored (env : WatchEnv) (timeout : Nat) :
    ((∀ t, t < timeout → ∀ f, f ∈ env.contents t →
        strToLower f.suffix ∈ acceptedExts → f ∈ env.contents 0) →
      wait_for_download_completion env timeout = none) ∧
    (∀ f, wait_for_download_completion env timeout = some f →
      f ∉ env.contents 0 ∧ strToLower f.suffix ∈ acceptedExts) := by
  constructor
  · intro h
    unfold wait_for_download_completion waitT
    rw [watchLoop_none env (env.contents 0) timeout 0 ?_]
    · rfl
    · intro u hu1 hu2
      exact newAccepted_none_of_old env (env.contents 0) u
        (fun g hg hacc => h u (by omega) g hg hacc)
  · intro f hf
    unfold wait_for_download_completion waitT at hf
    cases hw : watchLoop env (env.contents 0) timeout 0 with
    | none => rw [hw] at hf; exact absurd hf (by simp)
    | some p =>
      rw [hw] at hf
      obtain ⟨g, tr⟩ := p
      have hfg : g = f := by simpa using hf
      subst hfg
      exact watchLoop_new env (env.contents 0) timeout 0 g tr hw

/-- Witness for C2: with only the pre-existing `oldXls` ever present the
watcher returns `none`; and the successful run on `envStable` certifies the
returned `fileA` as new and accepted. -/
theorem c2_witness :
    wait_for_download_completion envPre 3 = none ∧
    (fileA ∉ envStable.contents 0 ∧ strToLower fileA.suffix ∈ acceptedExts) :=
  ⟨(c2_none_on_timeout_and_preexisting_ignored envPre 3).1 (by decide),
   (c2_none_on_timeout_and_preexisting_ignored envStable 30).2 fileA (by decide)⟩

/-- Claim C3, counterexample.  `perform_download_cycle` has no exception
handler of its own: when `driver.get(URL)` raises an unexpected exception,
the exception propagates out of the cycle function to its caller, so it is
not caught at the `perform_download_cycle` boundary. -/
theorem c3_counterexample_fault_escapes_cycle :
    perform_download_cycle envNavFail "Maker" =
      .error (PyExc.otherExc "connection reset") := rfl

/-- Claim C3 (amended): an unexpected exception raised by a step of a cycle
propagates out of `perform_download_cycle` and is caught one frame up, by
the per-attempt handler of the retry loop in `main`, which records a
diagnostic snapshot, treats that attempt as failed, and continues with the
next attempt; the fault never propagates past the retry loop. -/
theorem c3_fault_caught_at_retry_loop (opt : String) (envs : Nat → CycleEnv)
    (e : PyExc) (f : DFile)
    (h1 : perform_download_cycle (envs 1) opt = .error e)
    (h2 : perform_download_cycle (envs 2) opt = .ok (some f)) :
    runTarget opt (fun k => perform_download_cycle (envs k) opt) =
      ⟨some f, 2, ["exception_" ++ opt]⟩ :=
  runTarget_fault_then_success opt (fun k => perform_download_cycle (envs k) opt)
    e f h1 h2

/-- Witness for C3: attempt 1 raises on navigation, attempt 2 completes and
downloads `fileA`; the run records one diagnostic snapshot and succeeds. -/
theorem c3_fault_caught_witness :
    runTarget "Maker" (fun k => perform_download_cycle (envsW k) "Maker") =
      ⟨some fileA, 2, ["exception_" ++ "Maker"]⟩ :=
  c3_fault_caught_at_retry_loop "Maker" envsW (PyExc.otherExc "connection reset")
    fileA rfl rfl

/-- Claim C4, counterexample.  When the direct click and the scrolled retry
are intercepted and the script-forced activation itself raises (the only way
tier 3 can fail), the exception is not caught — the outer handler catches
only TimeoutException — so `try_find_click` raises to its caller instead of
returning a boolean. -/
theorem c4_counterexample_raises_when_all_tiers_fail :
    try_find_click clickTier3Raises "id" 10 = .error (PyExc.otherExc "js error") := rfl

/-- Claim C4 (amended): for a recognized locator kind the click escalates
through exactly the three tiers — direct click, scroll plus one retried
direct click, then script-forced activation — and reports its outcome as a
boolean, never raising, PROVIDED the resolution wait and the two scripted
operations raise nothing but the expected timeout condition; a non-timeout
exception from a scripted step escapes to the caller. -/
theorem c4_three_tiers_boolean_when_scripts_clean (env : ClickEnv) (bt : String)
    (timeout : Nat)
    (hwait : ∀ e, env.wait_until = .error e → e = PyExc.timeoutExc)
    (hscroll : ∀ e, env.scrollScript = .error e → e = PyExc.timeoutExc)
    (hforce : ∀ e, env.clickScript = .error e → e = PyExc.timeoutExc) :
    (∃ b, try_find_click env bt timeout = .ok b) ∧
    (env.wait_until = .ok () → env.click1 = .ok () →
      (bt = "id" ∨ bt = "xpath" ∨ bt = "css") →
      try_find_click env bt timeout = .ok true) ∧
    (∀ e1, env.wait_until = .ok () → env.click1 = .error e1 →
      env.scrollScript = .ok () → env.click2 = .ok () →
      (bt = "id" ∨ bt = "xpath" ∨ bt = "css") →
      try_find_click env bt timeout = .ok true) ∧
    (∀ e1 e2, env.wait_until = .ok () → env.click1 = .error e1 →
      env.scrollScript = .ok () → env.click2 = .error e2 →
      env.clickScript = .ok () →
      (bt = "id" ∨ bt = "xpath" ∨ bt = "css") →
      try_find_click env bt timeout = .ok true) := by
  refine ⟨?_, ?_, ?_, ?_⟩
  · by_cases hbt : (bt == "id" || bt == "xpath" || bt == "css") = true
    · cases hw : env.wait_until with
      | error e =>
        have he := hwait e hw
        subst he
        exact ⟨false, by simp [try_find_click, hbt, hw]⟩
      | ok u =>
        cases hc1 : env.click1 with
        | ok v => exact ⟨true, by simp [try_find_click, hbt, hw, hc1]⟩
        | error e1 =>
          cases hsc : env.scrollScript with
          | error e2 =>
            have he := hscroll e2 hsc
            subst he
            exact ⟨false, by simp [try_find_click, hbt, hw, hc1, hsc]⟩
          | ok w =>
            cases hc2 : env.click2 with
            | ok v2 => exact ⟨true, by simp [try_find_click, hbt, hw, hc1, hsc, hc2]⟩
            | error e2 =>
              cases hcs : env.clickScript with
              | ok v3 =>
                exact ⟨true, by simp [try_find_click, hbt, hw, hc1, hsc, hc2, hcs]⟩
              | error e3 =>
                have he := hforce e3 hcs
                subst he
                exact ⟨false, by simp [try_find_click, hbt, hw, hc1, hsc, hc2, hcs]⟩
    · simp only [Bool.not_eq_true] at hbt
      exact ⟨false, by simp [try_find_click, hbt]⟩
  · intro hw hc1 hsig
    have hbt : (bt == "id" || bt == "xpath" || bt == "css") = true := by
      rcases hsig with h | h | h <;> subst h <;> rfl
    simp [try_find_click, hbt, hw, hc1]
  · intro e1 hw hc1 hsc hc2 hsig
    have hbt : (bt == "id" || bt == "xpath" || bt == "css") = true := by
      rcases hsig with h | h | h <;> subst h <;> rfl
    simp [try_find_click, hbt, hw, hc1, hsc, hc2]
  · intro e1 e2 hw hc1 hsc hc2 hcs hsig
    have hbt : (bt == "id" || bt == "xpath" || bt == "css") = true := by
      rcases hsig with h | h | h <;> subst h <;> rfl
    simp [try_find_click, hbt, hw, hc1, hsc, hc2, hcs]

/-- Witness for C4 at the all-succeeding oracle and locator kind "id". -/
theorem c4_witness :
    (∃ b, try_find_click clickOk "id" 10 = .ok b) ∧
    (clickOk.wait_until = .ok () → clickOk.click1 = .ok () →
      ("id" = "id" ∨ "id" = "xpath" ∨ "id" = "css") →
      try_find_click clickOk "id" 10 = .ok true) ∧
    (∀ e1, clickOk.wait_until = .ok () → clickOk.click1 = .error e1 →
      clickOk.scrollScript = .ok () → clickOk.click2 = .ok () →
      ("id" = "id" ∨ "id" = "xpath" ∨ "id" = "css") →
      try_find_click clickOk "id" 10 = .ok true) ∧
    (∀ e1 e2, clickOk.wait_until = .ok () → clickOk.click1 = .error e1 →
      clickOk.scrollScript = .ok () → clickOk.click2 = .error e2 →
      clickOk.clickScript = .ok () →
      ("id" = "id" ∨ "id" = "xpath" ∨ "id" = "css") →
      try_find_click clickOk "id" 10 = .ok true) :=
  c4_three_tiers_boolean_when_scripts_clean clickOk "id" 10
    (fun _ h => by simp [clickOk] at h)
    (fun _ h => by simp [clickOk] at h)
    (fun _ h => by simp [clickOk] at h)

/-- Claim C5: the resolution loop tries the ordered candidates strictly in
priority order: if candidates `0..i-1` fail and candidate `i` clicks, the
loop acts on candidate `i`; and it reports not-found exactly when every
candidate in the list has been exhausted. -/
theorem c5_resolver_priority_order (env : Nat → ClickEnv) (timeout : Nat)
    (cands : List SelectorCandidate) (i : Nat) (hi : i < cands.length)
    (hfail : ∀ j (hj : j < i),
      try_find_click (env j) ((cands.get ⟨j, by omega⟩).kind) timeout = .ok false)
    (hsucc : try_find_click (env i) ((cands.get ⟨i, hi⟩).kind) timeout = .ok true) :
    clickFirstCandidate env timeout cands 0 = .ok (some i) ∧
    (∀ env2 : Nat → ClickEnv,
      (∀ j (hj : j < cands.length),
        try_find_click (env2 j) ((cands.get ⟨j, hj⟩).kind) timeout = .ok false) →
      clickFirstCandidate env2 timeout cands 0 = .ok none) := by
  constructor
  · have h := clickFirst_hit timeout cands env 0 i hi
      (fun j hj => by simpa using hfail j hj)
      (by simpa using hsucc)
    simpa using h
  · intro env2 h2
    exact clickFirst_exhausted timeout cands env2 0 (fun j hj => by simpa using h2 j hj)

/-- Witness for C5 on the refresh-control candidate list: candidate 0 times
out, candidate 1 resolves, and the loop clicks candidate 1. -/
theorem c5_witness :
    clickFirstCandidate envSecondHit 10 REFRESH_CANDIDATES 0 = .ok (some 1) ∧
    (∀ env2 : Nat → ClickEnv,
      (∀ j (hj : j < REFRESH_CANDIDATES.length),
        try_find_click (env2 j) ((REFRESH_CANDIDATES.get ⟨j, hj⟩).kind) 10 = .ok false) →
      clickFirstCandidate env2 10 REFRESH_CANDIDATES 0 = .ok none) :=
  c5_resolver_priority_order envSecondHit 10 REFRESH_CANDIDATES 1 (by decide)
    (fun j hj => by
      have hj0 : j = 0 := by omega
      subst hj0
      rfl)
    rfl

/-- Claim C6: the `timeout` argument of `try_find_click` is dead — the body
waits on the shared `WebDriverWait(driver, 20)` object, so the result does
not depend on the per-candidate sub-timeout at all; with the sub-timeout 8 an
element first clickable at poll tick 15 (past its own sub-timeout, inside the
shared 20) is still found and clicked. -/
theorem c6_timeout_argument_ignored :
    (∀ (c : Nat → Bool) (w a b : Nat),
      try_find_click_timed c w a = try_find_click_timed c w b) ∧
    try_find_click_timed (fun t => t == 15) 20 8 = true ∧
    ((List.range 8).all (fun t => !(t == 15))) = true :=
  ⟨fun _ _ _ _ => rfl, by decide, by decide⟩

/-- Claim C7: the retry loop makes at most 3 cycle invocations for a target
and stops at the first attempt that returns a file: if attempts before `k`
return no file and attempt `k` (1 ≤ k ≤ 3) returns one, the loop records
that file and exactly `k` attempts — in particular success on attempt 2
means exactly 2 attempts, never 3. -/
theorem c7_retry_stops_at_first_success (opt : String)
    (cyc : Nat → Except PyExc (Option DFile)) (k : Nat) (f : DFile)
    (hk1 : 1 ≤ k) (hk3 : k ≤ 3)
    (hfail : ∀ j g, 1 ≤ j → j < k → cyc j ≠ .ok (some g))
    (hsucc : cyc k = .ok (some f)) :
    (runTarget opt cyc).file = some f ∧ (runTarget opt cyc).attempts = k ∧
    (∀ cyc2 : Nat → Except PyExc (Option DFile), (runTarget opt cyc2).attempts ≤ 3) := by
  have h := runTargetLoop_first_success opt cyc 3 1 [] k f hk1 (by omega) hfail hsucc
  refine ⟨h.1, h.2, ?_⟩
  intro cyc2
  have hb := runTargetLoop_attempts_le opt cyc2 3 1 []
  simpa [runTarget] using hb

/-- Witness for C7: attempt 1 returns no file, attempt 2 downloads `fileA`;
the loop stops after exactly 2 attempts. -/
theorem c7_witness :
    (runTarget "Maker" cycW).file = some fileA ∧ (runTarget "Maker" cycW).attempts = 2 ∧
    (∀ cyc2 : Nat → Except PyExc (Option DFile), (runTarget "Maker" cyc2).attempts ≤ 3) :=
  c7_retry_stops_at_first_success "Maker" cycW 2 fileA (by omega) (by omega)
    (fun j g h1 h2 => by
      have hj : j = 1 := by omega
      subst hj
      simp [cycW])
    rfl

/-- Claim C8: exhaustion of all 3 attempts for an earlier target A never
prevents a later target B from being attempted: if every attempt for A
returns no file and B downloads `f` on its first attempt, the run summary
lists exactly the file `f` and exactly the failed target A. -/
theorem c8_failed_target_never_blocks_next (A B : String)
    (cycOf : String → Nat → Except PyExc (Option DFile)) (f : DFile)
    (hA : ∀ k g, cycOf A k ≠ .ok (some g))
    (hB : cycOf B 1 = .ok (some f)) :
    runTargets cycOf [A, B] = ([f], [A]) := by
  have hAres := runTargetLoop_no_success A (cycOf A) 3 1 [] (fun k g _ _ => hA k g)
  have hBres := runTargetLoop_first_success B (cycOf B) 3 1 [] 1 f (Nat.le_refl 1)
    (by omega) (fun j g h1 h2 => absurd h2 (by omega)) hB
  simp only [runTargets, runTarget, hAres.1, hBres.1]

/-- Witness for C8: "Maker" fails all attempts, "Vehicle Category" succeeds
at once; the summary is exactly one file for B and A failed. -/
theorem c8_witness :
    runTargets cycOfW ["Maker", "Vehicle Category"] = ([fileA], ["Maker"]) :=
  c8_failed_target_never_blocks_next "Maker" "Vehicle Category" cycOfW fileA
    (fun k g => by simp [cycOfW])
    rfl

/-- Claim C9: on every exit of the run body — summary returned or exception
raised — the `finally` clause tears the session down exactly once, and a
failure of `driver.quit()` itself is swallowed rather than allowed to
replace the outcome. -/
theorem c9_session_teardown_once_and_swallowed
    (body : Except PyExc (List DFile × List String)) (quitResult : Except PyExc Unit) :
    (mainRun body quitResult).quitCalls = 1 ∧ (mainRun body quitResult).outcome = body := by
  cases quitResult <;> exact ⟨rfl, rfl⟩

/-- Claim C10, counterexample.  `cleanup_old_downloads` swallows per-file
unlink failures, so a pre-existing spreadsheet file whose `unlink()` raises
survives the cleanup (and therefore the run), contradicting the claim that
every such file is deleted. -/
theorem c10_counterexample_file_survives_unlink_failure :
    oldXls ∈ cleanup_old_downloads (fun g => g.name == "old.xls") [oldXls] ∧
    oldXls.suffix ∈ cleanupPatterns :=
  ⟨by decide, by decide⟩

/-- Claim C10 (amended): at the start of the run, before any retrieval
cycle, the engine attempts to unlink every file matching the three
spreadsheet patterns, swallowing per-file deletion errors: the directory
state handed to the target loop is exactly the cleaned state, and a file
survives the cleanup iff it was present and either matches no pattern or its
unlink raised.  When no unlink fails, no matching pre-existing file
survives. -/
theorem c10_cleanup_removes_unless_unlink_fails (u : DFile → Bool)
    (fs0 : List DFile) (cycOf : String → Nat → Except PyExc (Option DFile))
    (f : DFile) :
    (mainBody u fs0 cycOf).2 = cleanup_old_downloads u fs0 ∧
    (f ∈ cleanup_old_downloads u fs0 ↔
      f ∈ fs0 ∧ (f.suffix ∉ cleanupPatterns ∨ u f = true)) :=
  ⟨rfl, mem_cleanup u fs0 f⟩

end VahanFetch
